import Mathlib

/-!
Verification of AirtableConnect: a thin web UI and REST proxy over the
Airtable API.  We shallowly embed the server routes (`registerRoutes`),
the in-memory configuration store (`MemStorage`), and the client-side
field classifier (`isReadOnlyField` in record-form.tsx, the attachment
field detection in the upload modal of records-table.tsx).
-/

namespace AirtableConnect

/-! ### String helpers

JavaScript case-insensitive substring matching is modelled on `List Char`
with an explicit ASCII lowering, mirroring `field.toLowerCase()` /
`/pat/i.test(field)` for the ASCII field names the application handles. -/

/-- ASCII lowering of one character, as `String.prototype.toLowerCase`
acts on ASCII: `A`–`Z` shift by 32, all else unchanged. -/
def lowerChar (c : Char) : Char :=
  if 65 ≤ c.toNat ∧ c.toNat ≤ 90 then Char.ofNat (c.toNat + 32) else c

/-- Field name lowered to a character list (`field.toLowerCase()`). -/
def lowerName (s : String) : List Char := s.data.map lowerChar

/-- Substring test on character lists: does `needle` occur contiguously
inside the second argument? -/
def subOf (needle : List Char) : List Char → Bool
  | [] => needle.isEmpty
  | c :: rest => needle.isPrefixOf (c :: rest) || subOf needle rest

/-- Case-insensitive substring test: the JS idiom
`field.toLowerCase().includes(pat)` / `/pat/i.test(field)` for a
lowercase ASCII pattern `pat`. -/
def containsCI (pat : String) (field : String) : Bool :=
  subOf pat.data (lowerName field)

/-- The regex `/\([^)]*\)/`: some `(` is followed by a later `)`. -/
def containsParenPair : List Char → Bool
  | [] => false
  | c :: rest => (c == '(' && rest.contains ')') || containsParenPair rest

/-! ### Field classifier (record-form.tsx, `isReadOnlyField`) -/

/-- The read-only patterns of `isReadOnlyField` in record-form.tsx, each
regex rendered as the lowercase substring(s) it matches
(`/days? (open|since|elapsed)/i` expands to its six substring forms; the
parenthesis regex is handled separately by `containsParenPair`). -/
def readOnlyPatterns : List String :=
  ["ai", "summary", "formula", "computed", "calculated",
   "number of", "count", "total", "sum", "average", "max", "min",
   "day open", "days open", "day since", "days since",
   "day elapsed", "days elapsed", "time elapsed", "duration",
   "created time", "created by", "last modified", "modified by",
   "photo", "image", "picture", "attachment", "file", "document",
   "rollup", "lookup", "reference",
   "auto number", "barcode", "autonumber",
   "severity", "priority level", "bug severity",
   "bug status", "status update", "current status",
   "comment sentiment", "sentiment", "author role"]

/-- record-form.tsx `isReadOnlyField`: a field is read-only when its name
matches any read-only pattern case-insensitively, or contains a
parenthesized substring. -/
def isReadOnlyField (field : String) : Bool :=
  readOnlyPatterns.any (fun p => containsCI p field)
    || containsParenPair (lowerName field)

/-- record-form.tsx: `fields.filter(field => !isReadOnlyField(field))`. -/
def editableFields (fields : List String) : List String :=
  fields.filter (fun f => !isReadOnlyField f)

/-! ### Attachment-field detection (records-table.tsx, `UploadModal`) -/

/-- Image terms of the upload modal's `imageFields` filter. -/
def imageTerms : List String :=
  ["image", "photo", "picture", "screenshot", "pic"]

/-- General-attachment terms of the upload modal's
`generalAttachmentFields` filter. -/
def generalAttachmentTerms : List String :=
  ["attachment", "file", "document", "upload"]

/-- Does the field name match an image term (case-insensitive substring)? -/
def matchesImageTerm (field : String) : Bool :=
  imageTerms.any (fun p => containsCI p field)

/-- Does the field name match a general-attachment term? -/
def matchesGeneralTerm (field : String) : Bool :=
  generalAttachmentTerms.any (fun p => containsCI p field)

/-- A field name matching either term set: the upload-target search can
reach it. -/
def isAttachmentCandidate (field : String) : Bool :=
  matchesImageTerm field || matchesGeneralTerm field

/-- records-table.tsx `imageFields`. -/
def imageFields (availableFields : List String) : List String :=
  availableFields.filter matchesImageTerm

/-- records-table.tsx `generalAttachmentFields`. -/
def generalAttachmentFields (availableFields : List String) : List String :=
  availableFields.filter matchesGeneralTerm

/-- records-table.tsx: `[...imageFields, ...generalAttachmentFields]`. -/
def attachmentFields (availableFields : List String) : List String :=
  imageFields availableFields ++ generalAttachmentFields availableFields

/-- records-table.tsx: `attachmentFields[0] || "Attachments"`; the empty
string is JS-falsy, hence the extra guard. -/
def attachmentFieldName (availableFields : List String) : String :=
  match attachmentFields availableFields with
  | [] => "Attachments"
  | f :: _ => if f = "" then "Attachments" else f

/-- Outcome of pressing Upload in the modal. -/
inductive UploadAction where
  | noFile
  | noAttachmentFieldError
  | mutate (fieldName : String)
deriving DecidableEq, Repr

/-- records-table.tsx `handleUpload`: no file selected does nothing; with
no detected attachment field it reports the "No Attachment Field" toast
and returns; otherwise it fires the upload mutation at the chosen field. -/
def handleUpload (fileSelected : Bool) (availableFields : List String) :
    UploadAction :=
  if !fileSelected then .noFile
  else if (attachmentFields availableFields).length = 0 then
    .noAttachmentFieldError
  else .mutate (attachmentFieldName availableFields)

/-- records-table.tsx `UploadModal` default: `availableFields = []` when
the prop is not passed. -/
def uploadModalFields (availableFields : Option (List String)) :
    List String :=
  availableFields.getD []

/-- RecordsTable renders `<UploadModal open recordId config />` with no
`availableFields` prop, so the modal sees the default. -/
def recordsTableUploadModalFields : List String := uploadModalFields none

/-! ### Configuration storage (server/storage.ts, `MemStorage`) -/

/-- shared/schema.ts `airtableConfigSchema`: the credential triple. -/
structure AirtableConfig where
  apiKey : String
  baseId : String
  tableName : String
deriving DecidableEq, Repr

/-- MemStorage's single mutable cell, `config: AirtableConfig | undefined`. -/
abbrev StorageState := Option AirtableConfig

/-- storage.ts constructor: `this.config = undefined`. -/
def MemStorage.init : StorageState := none

/-- storage.ts `saveAirtableConfig`: `this.config = config`. -/
def saveAirtableConfig (config : AirtableConfig) (_s : StorageState) :
    StorageState :=
  some config

/-- storage.ts `getAirtableConfig`: `return this.config`. -/
def getAirtableConfig (s : StorageState) : StorageState := s

/-! ### Remote table proxy (routes file, `registerRoutes`)

Each Express handler is embedded as a pure function of: the stored
configuration, its route parameters, the (already zod-parsed or failed)
request body, and a fetch oracle mapping the outgoing request to what the
external API did.  It returns the HTTP response sent to the caller
together with the list of fetch requests actually issued. -/

inductive HttpMethod where
  | GET | POST | PATCH | DELETE
deriving DecidableEq, Repr

/-- shared/schema.ts `uploadAttachmentSchema`: `{url, filename?}`. -/
structure UploadAttachment where
  url : String
  filename : Option String
deriving DecidableEq, Repr

/-- A field value as far as the proxy's request bodies shape them: the
attachment route builds a list-of-attachment value, the create/update
routes pass arbitrary client values through opaquely. -/
inductive FieldValue where
  | rawValue (raw : String)
  | attachments (items : List UploadAttachment)
deriving DecidableEq, Repr

/-- A `fields` map, as in `{ fields: { ... } }` request bodies. -/
abbrev FieldMap := List (String × FieldValue)

/-- One outgoing `fetch` call: URL, method, bearer token from the stored
API key, and the JSON body `{ fields: ... }` when present. -/
structure FetchRequest where
  url : String
  method : HttpMethod
  bearer : String
  body : Option FieldMap
deriving DecidableEq, Repr

/-- What the external API did with a request: a response with a status
and a body text, or a thrown network exception. -/
inductive FetchResult where
  | response (status : Nat) (body : String)
  | netError (msg : String)
deriving DecidableEq, Repr

/-- `response.ok`: status in the 200–299 range. -/
def isOk (status : Nat) : Bool := decide (200 ≤ status ∧ status ≤ 299)

/-- The body of a response the proxy sends to its own caller. -/
inductive RespBody where
  | errJson (msg : String)
  | dataJson (raw : String)
deriving DecidableEq, Repr

/-- An HTTP response of the proxy: `res.status(...).json(...)`;
`res.json(data)` alone carries the default status 200. -/
structure ApiResponse where
  status : Nat
  body : RespBody
deriving DecidableEq, Repr

/-- The 400 response `{ error: "Airtable not configured" }` every record
route returns when no configuration is stored. -/
def notConfigured : ApiResponse :=
  ⟨400, .errJson "Airtable not configured"⟩

/-- `https://api.airtable.com/v0/{baseId}/{tableName}`. -/
def tableUrl (cfg : AirtableConfig) (tableName : String) : String :=
  "https://api.airtable.com/v0/" ++ cfg.baseId ++ "/" ++ tableName

/-- `https://api.airtable.com/v0/{baseId}/{tableName}/{recordId}`. -/
def recordUrl (cfg : AirtableConfig) (tableName recordId : String) :
    String :=
  tableUrl cfg tableName ++ "/" ++ recordId

/-- The GET issued by the list route. -/
def listReq (cfg : AirtableConfig) (tableName : String) : FetchRequest :=
  ⟨tableUrl cfg tableName, .GET, cfg.apiKey, none⟩

/-- The POST issued by the create route, body `{ fields }`. -/
def createReq (cfg : AirtableConfig) (tableName : String) (m : FieldMap) :
    FetchRequest :=
  ⟨tableUrl cfg tableName, .POST, cfg.apiKey, some m⟩

/-- The PATCH issued by the update route, body `{ fields }`. -/
def updateReq (cfg : AirtableConfig) (tableName recordId : String)
    (m : FieldMap) : FetchRequest :=
  ⟨recordUrl cfg tableName recordId, .PATCH, cfg.apiKey, some m⟩

/-- The DELETE issued by the delete route. -/
def deleteReq (cfg : AirtableConfig) (tableName recordId : String) :
    FetchRequest :=
  ⟨recordUrl cfg tableName recordId, .DELETE, cfg.apiKey, none⟩

/-- The PATCH issued by the attachment route: it sets the one named field
to the single-element list holding the parsed attachment. -/
def attachReq (cfg : AirtableConfig) (tableName recordId fieldName : String)
    (att : UploadAttachment) : FetchRequest :=
  ⟨recordUrl cfg tableName recordId, .PATCH, cfg.apiKey,
    some [(fieldName, .attachments [att])]⟩

/-- Shared tail of every record route: relay `response.ok` bodies as
`res.json(data)`, wrap non-ok bodies as
`Airtable API error: ...` under the upstream status, and send a thrown
network error's message under the route's catch status `catchStatus`. -/
def relay (catchStatus : Nat) (req : FetchRequest)
    (doFetch : FetchRequest → FetchResult) : ApiResponse × List FetchRequest :=
  match doFetch req with
  | .response st b =>
      if isOk st then (⟨200, .dataJson b⟩, [req])
      else (⟨st, .errJson ("Airtable API error: " ++ b)⟩, [req])
  | .netError msg => (⟨catchStatus, .errJson msg⟩, [req])

/-- Route `GET /api/airtable/:tableName`; its catch answers 500. -/
def listRecordsRoute (config : Option AirtableConfig) (tableName : String)
    (doFetch : FetchRequest → FetchResult) : ApiResponse × List FetchRequest :=
  match config with
  | none => (notConfigured, [])
  | some cfg => relay 500 (listReq cfg tableName) doFetch

/-- Route `POST /api/airtable/:tableName`; the body is zod-parsed after
the configuration check, and the catch (parse failure or network
exception) answers 400. -/
def createRecordRoute (config : Option AirtableConfig) (tableName : String)
    (body : Except String FieldMap)
    (doFetch : FetchRequest → FetchResult) : ApiResponse × List FetchRequest :=
  match config with
  | none => (notConfigured, [])
  | some cfg =>
      match body with
      | .error msg => (⟨400, .errJson msg⟩, [])
      | .ok m => relay 400 (createReq cfg tableName m) doFetch

/-- Route `PATCH /api/airtable/:tableName/:recordId`; catch answers 400. -/
def updateRecordRoute (config : Option AirtableConfig)
    (tableName recordId : String) (body : Except String FieldMap)
    (doFetch : FetchRequest → FetchResult) : ApiResponse × List FetchRequest :=
  match config with
  | none => (notConfigured, [])
  | some cfg =>
      match body with
      | .error msg => (⟨400, .errJson msg⟩, [])
      | .ok m => relay 400 (updateReq cfg tableName recordId m) doFetch

/-- Route `DELETE /api/airtable/:tableName/:recordId`; catch answers 500. -/
def deleteRecordRoute (config : Option AirtableConfig)
    (tableName recordId : String)
    (doFetch : FetchRequest → FetchResult) : ApiResponse × List FetchRequest :=
  match config with
  | none => (notConfigured, [])
  | some cfg => relay 500 (deleteReq cfg tableName recordId) doFetch

/-- Route `POST /api/airtable/:tableName/:recordId/attachment/:fieldName`;
the body is parsed by `uploadAttachmentSchema`, and the catch answers
400. -/
def attachRecordRoute (config : Option AirtableConfig)
    (tableName recordId fieldName : String)
    (body : Except String UploadAttachment)
    (doFetch : FetchRequest → FetchResult) : ApiResponse × List FetchRequest :=
  match config with
  | none => (notConfigured, [])
  | some cfg =>
      match body with
      | .error msg => (⟨400, .errJson msg⟩, [])
      | .ok att => relay 400 (attachReq cfg tableName recordId fieldName att) doFetch

/-! ### Helper lemmas -/

/-- A relayed route issues exactly one fetch request. -/
theorem relay_snd (catchStatus : Nat) (req : FetchRequest)
    (doFetch : FetchRequest → FetchResult) :
    (relay catchStatus req doFetch).2 = [req] := by
  unfold relay
  cases doFetch req with
  | response st b =>
      by_cases h : isOk st = true <;> simp [h]
  | netError msg => rfl

/-- On an ok upstream response the relay passes the body through under
status 200. -/
theorem relay_ok (catchStatus : Nat) (req : FetchRequest)
    (doFetch : FetchRequest → FetchResult) (st : Nat) (b : String)
    (h : doFetch req = .response st b) (hok : isOk st = true) :
    (relay catchStatus req doFetch).1 = ⟨200, .dataJson b⟩ := by
  unfold relay
  rw [h]
  simp [hok]

/-- On a non-ok upstream response the relay preserves the status and
wraps the body. -/
theorem relay_notOk (catchStatus : Nat) (req : FetchRequest)
    (doFetch : FetchRequest → FetchResult) (st : Nat) (b : String)
    (h : doFetch req = .response st b) (hok : isOk st = false) :
    (relay catchStatus req doFetch).1
      = ⟨st, .errJson ("Airtable API error: " ++ b)⟩ := by
  unfold relay
  rw [h]
  simp [hok]

/-- On a network exception the relay answers with the route's catch
status and the exception's message. -/
theorem relay_net (catchStatus : Nat) (req : FetchRequest)
    (doFetch : FetchRequest → FetchResult) (msg : String)
    (h : doFetch req = .netError msg) :
    (relay catchStatus req doFetch).1 = ⟨catchStatus, .errJson msg⟩ := by
  unfold relay
  rw [h]

/-- A configuration used to instantiate theorems at concrete inputs. -/
def cfg0 : AirtableConfig := ⟨"keyX", "app123", "Tasks"⟩

end AirtableConnect

namespace AirtableConnect

/-! ### Claims about the proxy and the configuration store -/

/-- C1: each of the five proxy operations, when no configuration has been
saved, answers the configuration-missing error with HTTP status 400 and
issues no fetch request to the external API. -/
theorem claim_C1_not_configured :
    notConfigured = ⟨400, .errJson "Airtable not configured"⟩
    ∧ (∀ t doFetch, listRecordsRoute none t doFetch = (notConfigured, []))
    ∧ (∀ t body doFetch, createRecordRoute none t body doFetch = (notConfigured, []))
    ∧ (∀ t r body doFetch, updateRecordRoute none t r body doFetch = (notConfigured, []))
    ∧ (∀ t r doFetch, deleteRecordRoute none t r doFetch = (notConfigured, []))
    ∧ (∀ t r f body doFetch, attachRecordRoute none t r f body doFetch = (notConfigured, [])) := by
  refine ⟨rfl, fun t doFetch => rfl, fun t body doFetch => rfl,
    fun t r body doFetch => rfl, fun t r doFetch => rfl,
    fun t r f body doFetch => rfl⟩

/-- C8: the configuration holder is a single cell with last-write-wins
semantics: after two saves `get` returns exactly the second value, after
any save it returns that value unchanged, and before any save it returns
the unset value. -/
theorem claim_C8_last_write_wins :
    (∀ (c1 c2 : AirtableConfig) (s : StorageState),
      getAirtableConfig (saveAirtableConfig c2 (saveAirtableConfig c1 s)) = some c2)
    ∧ (∀ (c : AirtableConfig) (s : StorageState),
      getAirtableConfig (saveAirtableConfig c s) = some c)
    ∧ getAirtableConfig MemStorage.init = none := by
  exact ⟨fun c1 c2 s => rfl, fun c s => rfl, rfl⟩

/-- C5: for every table, record id, field name and attachment reference,
attachFile issues exactly one PATCH whose body sets the named field to
the single-element list holding that attachment (replacing, not
appending), and on upstream success returns the upstream body unchanged. -/
theorem claim_C5_attach_replaces :
    ∀ (cfg : AirtableConfig) (t r f : String) (att : UploadAttachment)
      (doFetch : FetchRequest → FetchResult),
    (attachRecordRoute (some cfg) t r f (.ok att) doFetch).2
        = [attachReq cfg t r f att]
    ∧ (attachReq cfg t r f att).method = .PATCH
    ∧ (attachReq cfg t r f att).body = some [(f, .attachments [att])]
    ∧ (∀ st b, doFetch (attachReq cfg t r f att) = .response st b →
        isOk st = true →
        (attachRecordRoute (some cfg) t r f (.ok att) doFetch).1
          = ⟨200, .dataJson b⟩) := by
  intro cfg t r f att doFetch
  refine ⟨relay_snd 400 _ doFetch, rfl, rfl, fun st b h hok => ?_⟩
  exact relay_ok 400 _ doFetch st b h hok

/-- C5 witness: the attach route at a concrete configuration, field and
attachment, with an upstream that answers 200. -/
theorem claim_C5_attach_replaces_witness :
    (attachRecordRoute (some cfg0) "Tasks" "rec1" "Screenshot"
        (.ok ⟨"https://example.com/uploads/a.png", some "a.png"⟩)
        (fun _ => .response 200 "UPDATED")).2
      = [attachReq cfg0 "Tasks" "rec1" "Screenshot"
          ⟨"https://example.com/uploads/a.png", some "a.png"⟩]
    ∧ (attachRecordRoute (some cfg0) "Tasks" "rec1" "Screenshot"
        (.ok ⟨"https://example.com/uploads/a.png", some "a.png"⟩)
        (fun _ => .response 200 "UPDATED")).1
      = ⟨200, .dataJson "UPDATED"⟩ := by
  have h := claim_C5_attach_replaces cfg0 "Tasks" "rec1" "Screenshot"
    ⟨"https://example.com/uploads/a.png", some "a.png"⟩
    (fun _ => .response 200 "UPDATED")
  exact ⟨h.1, h.2.2.2 200 "UPDATED" rfl (by decide)⟩

/-- C6: every proxy operation, on a non-2xx upstream response, answers
with the upstream status preserved and the upstream body wrapped as
`Airtable API error: ...`, having issued exactly one upstream request. -/
theorem claim_C6_upstream_error_passthrough :
    (∀ cfg t doFetch st b, doFetch (listReq cfg t) = .response st b →
      isOk st = false →
      listRecordsRoute (some cfg) t doFetch
        = (⟨st, .errJson ("Airtable API error: " ++ b)⟩, [listReq cfg t]))
    ∧ (∀ cfg t m doFetch st b, doFetch (createReq cfg t m) = .response st b →
      isOk st = false →
      createRecordRoute (some cfg) t (.ok m) doFetch
        = (⟨st, .errJson ("Airtable API error: " ++ b)⟩, [createReq cfg t m]))
    ∧ (∀ cfg t r m doFetch st b, doFetch (updateReq cfg t r m) = .response st b →
      isOk st = false →
      updateRecordRoute (some cfg) t r (.ok m) doFetch
        = (⟨st, .errJson ("Airtable API error: " ++ b)⟩, [updateReq cfg t r m]))
    ∧ (∀ cfg t r doFetch st b, doFetch (deleteReq cfg t r) = .response st b →
      isOk st = false →
      deleteRecordRoute (some cfg) t r doFetch
        = (⟨st, .errJson ("Airtable API error: " ++ b)⟩, [deleteReq cfg t r]))
    ∧ (∀ cfg t r f att doFetch st b,
      doFetch (attachReq cfg t r f att) = .response st b →
      isOk st = false →
      attachRecordRoute (some cfg) t r f (.ok att) doFetch
        = (⟨st, .errJson ("Airtable API error: " ++ b)⟩, [attachReq cfg t r f att])) := by
  refine ⟨fun cfg t doFetch st b h hok => ?_,
    fun cfg t m doFetch st b h hok => ?_,
    fun cfg t r m doFetch st b h hok => ?_,
    fun cfg t r doFetch st b h hok => ?_,
    fun cfg t r f att doFetch st b h hok => ?_⟩ <;>
  exact Prod.ext (relay_notOk _ _ doFetch st b h hok) (relay_snd _ _ doFetch)

/-- C6 witness: all five routes at a concrete configuration, with an
upstream answering 404. -/
theorem claim_C6_upstream_error_passthrough_witness :
    listRecordsRoute (some cfg0) "Tasks" (fun _ => .response 404 "NF")
      = (⟨404, .errJson ("Airtable API error: " ++ "NF")⟩, [listReq cfg0 "Tasks"])
    ∧ createRecordRoute (some cfg0) "Tasks" (.ok []) (fun _ => .response 404 "NF")
      = (⟨404, .errJson ("Airtable API error: " ++ "NF")⟩, [createReq cfg0 "Tasks" []])
    ∧ updateRecordRoute (some cfg0) "Tasks" "rec1" (.ok []) (fun _ => .response 404 "NF")
      = (⟨404, .errJson ("Airtable API error: " ++ "NF")⟩, [updateReq cfg0 "Tasks" "rec1" []])
    ∧ deleteRecordRoute (some cfg0) "Tasks" "rec1" (fun _ => .response 404 "NF")
      = (⟨404, .errJson ("Airtable API error: " ++ "NF")⟩, [deleteReq cfg0 "Tasks" "rec1"])
    ∧ attachRecordRoute (some cfg0) "Tasks" "rec1" "Photo"
        (.ok ⟨"https://example.com/u/a.png", none⟩) (fun _ => .response 404 "NF")
      = (⟨404, .errJson ("Airtable API error: " ++ "NF")⟩,
          [attachReq cfg0 "Tasks" "rec1" "Photo" ⟨"https://example.com/u/a.png", none⟩]) :=
  ⟨claim_C6_upstream_error_passthrough.1 cfg0 "Tasks" _ 404 "NF" rfl (by decide),
   claim_C6_upstream_error_passthrough.2.1 cfg0 "Tasks" [] _ 404 "NF" rfl (by decide),
   claim_C6_upstream_error_passthrough.2.2.1 cfg0 "Tasks" "rec1" [] _ 404 "NF" rfl (by decide),
   claim_C6_upstream_error_passthrough.2.2.2.1 cfg0 "Tasks" "rec1" _ 404 "NF" rfl (by decide),
   claim_C6_upstream_error_passthrough.2.2.2.2 cfg0 "Tasks" "rec1" "Photo"
     ⟨"https://example.com/u/a.png", none⟩ _ 404 "NF" rfl (by decide)⟩

/-- C7 counterexample: a network exception during create is answered with
status 400, not the claimed generic 500. -/
theorem claim_C7_counterexample :
    (createRecordRoute (some cfg0) "Tasks" (.ok [])
        (fun _ => .netError "fetch failed")).1.status = 400
    ∧ ¬ (createRecordRoute (some cfg0) "Tasks" (.ok [])
        (fun _ => .netError "fetch failed")).1.status = 500 := by
  exact ⟨rfl, by decide⟩

/-- C7 amended: a transport failure is surfaced as a generic 500 by the
list and delete operations, but as a 400 by the create, update and
attachFile operations (whose catch blocks also serve body validation). -/
theorem claim_C7_amended :
    (∀ cfg t doFetch msg, doFetch (listReq cfg t) = .netError msg →
      (listRecordsRoute (some cfg) t doFetch).1 = ⟨500, .errJson msg⟩)
    ∧ (∀ cfg t r doFetch msg, doFetch (deleteReq cfg t r) = .netError msg →
      (deleteRecordRoute (some cfg) t r doFetch).1 = ⟨500, .errJson msg⟩)
    ∧ (∀ cfg t m doFetch msg, doFetch (createReq cfg t m) = .netError msg →
      (createRecordRoute (some cfg) t (.ok m) doFetch).1 = ⟨400, .errJson msg⟩)
    ∧ (∀ cfg t r m doFetch msg, doFetch (updateReq cfg t r m) = .netError msg →
      (updateRecordRoute (some cfg) t r (.ok m) doFetch).1 = ⟨400, .errJson msg⟩)
    ∧ (∀ cfg t r f att doFetch msg,
      doFetch (attachReq cfg t r f att) = .netError msg →
      (attachRecordRoute (some cfg) t r f (.ok att) doFetch).1
        = ⟨400, .errJson msg⟩) := by
  refine ⟨fun cfg t doFetch msg h => relay_net 500 _ doFetch msg h,
    fun cfg t r doFetch msg h => relay_net 500 _ doFetch msg h,
    fun cfg t m doFetch msg h => relay_net 400 _ doFetch msg h,
    fun cfg t r m doFetch msg h => relay_net 400 _ doFetch msg h,
    fun cfg t r f att doFetch msg h => relay_net 400 _ doFetch msg h⟩

/-- C7 amended witness: all five routes at a concrete configuration with
an upstream that throws. -/
theorem claim_C7_amended_witness :
    (listRecordsRoute (some cfg0) "Tasks" (fun _ => .netError "boom")).1
      = ⟨500, .errJson "boom"⟩
    ∧ (deleteRecordRoute (some cfg0) "Tasks" "rec1" (fun _ => .netError "boom")).1
      = ⟨500, .errJson "boom"⟩
    ∧ (createRecordRoute (some cfg0) "Tasks" (.ok []) (fun _ => .netError "boom")).1
      = ⟨400, .errJson "boom"⟩
    ∧ (updateRecordRoute (some cfg0) "Tasks" "rec1" (.ok []) (fun _ => .netError "boom")).1
      = ⟨400, .errJson "boom"⟩
    ∧ (attachRecordRoute (some cfg0) "Tasks" "rec1" "Photo"
        (.ok ⟨"https://example.com/u/a.png", none⟩) (fun _ => .netError "boom")).1
      = ⟨400, .errJson "boom"⟩ :=
  ⟨claim_C7_amended.1 cfg0 "Tasks" _ "boom" rfl,
   claim_C7_amended.2.1 cfg0 "Tasks" "rec1" _ "boom" rfl,
   claim_C7_amended.2.2.1 cfg0 "Tasks" [] _ "boom" rfl,
   claim_C7_amended.2.2.2.1 cfg0 "Tasks" "rec1" [] _ "boom" rfl,
   claim_C7_amended.2.2.2.2 cfg0 "Tasks" "rec1" "Photo"
     ⟨"https://example.com/u/a.png", none⟩ _ "boom" rfl⟩

/-! ### Claims about the field classifier -/

/-- The head of a filtered list is the first element satisfying the
predicate. -/
theorem filter_head_eq_find {α : Type} (p : α → Bool) :
    ∀ l : List α, (l.filter p).head? = l.find? p := by
  intro l
  induction l with
  | nil => rfl
  | cons a t ih => by_cases h : p a <;> simp [List.filter_cons, h, ih]

/-- A field matching an image term is a nonempty name. -/
theorem matchesImageTerm_ne_empty {f : String}
    (h : matchesImageTerm f = true) : ¬ f = "" := by
  intro he
  rw [he] at h
  exact absurd h (by decide)

/-- A field matching a general-attachment term is a nonempty name. -/
theorem matchesGeneralTerm_ne_empty {f : String}
    (h : matchesGeneralTerm f = true) : ¬ f = "" := by
  intro he
  rw [he] at h
  exact absurd h (by decide)

/-- C2: the editable-fields set is exactly the input minus the names the
classifier marks read-only — membership is characterised, the input
order is preserved (sublist), and the kept and removed counts add back
to the input length. -/
theorem claim_C2_editable_fields (l : List String) :
    (∀ f, f ∈ editableFields l ↔ f ∈ l ∧ isReadOnlyField f = false)
    ∧ (editableFields l).Sublist l
    ∧ l.length = (l.filter (fun f => isReadOnlyField f)).length
        + (editableFields l).length := by
  refine ⟨fun f => ?_, List.filter_sublist l, ?_⟩
  · simp [editableFields, List.mem_filter]
  · simpa [editableFields] using
      List.length_eq_length_filter_add (l := l) (fun f => isReadOnlyField f)

/-- C2 witness: the characterisation at a concrete field list. -/
theorem claim_C2_editable_fields_witness :
    ("Email" ∈ editableFields ["Email", "Notes"]
      ↔ "Email" ∈ ["Email", "Notes"] ∧ isReadOnlyField "Email" = false) :=
  (claim_C2_editable_fields ["Email", "Notes"]).1 "Email"

/-- C3: the upload target is the first supplied field matching an image
term, else the first matching a general-attachment term, else the fixed
fallback "Attachments"; including the spec's three concrete examples. -/
theorem claim_C3_upload_target :
    (∀ av f, av.find? matchesImageTerm = some f →
      attachmentFieldName av = f)
    ∧ (∀ av f, av.find? matchesImageTerm = none →
      av.find? matchesGeneralTerm = some f →
      attachmentFieldName av = f)
    ∧ (∀ av, av.find? matchesImageTerm = none →
      av.find? matchesGeneralTerm = none →
      attachmentFieldName av = "Attachments")
    ∧ attachmentFieldName ["Screenshot", "Attachments", "Notes"] = "Screenshot"
    ∧ attachmentFieldName ["Documents", "Notes"] = "Documents"
    ∧ attachmentFieldName ["Notes", "Priority"] = "Attachments" := by
  refine ⟨?_, ?_, ?_, by decide, by decide, by decide⟩
  · intro av f hf
    have himg : (imageFields av).head? = some f := by
      rw [imageFields, filter_head_eq_find]; exact hf
    have hne : ¬ f = "" := matchesImageTerm_ne_empty (List.find?_some hf)
    cases h : imageFields av with
    | nil => rw [h] at himg; cases himg
    | cons x xs =>
        rw [h] at himg
        have hx : x = f := by simpa using himg
        subst hx
        simp [attachmentFieldName, attachmentFields, h, List.cons_append, hne]
  · intro av f hnone hgen
    have himg : imageFields av = [] :=
      List.filter_eq_nil_iff.mpr (List.find?_eq_none.mp hnone)
    have hgenh : (generalAttachmentFields av).head? = some f := by
      rw [generalAttachmentFields, filter_head_eq_find]; exact hgen
    have hne : ¬ f = "" := matchesGeneralTerm_ne_empty (List.find?_some hgen)
    cases h : generalAttachmentFields av with
    | nil => rw [h] at hgenh; cases hgenh
    | cons x xs =>
        rw [h] at hgenh
        have hx : x = f := by simpa using hgenh
        subst hx
        simp [attachmentFieldName, attachmentFields, himg, h, hne]
  · intro av hnone hgnone
    have himg : imageFields av = [] :=
      List.filter_eq_nil_iff.mpr (List.find?_eq_none.mp hnone)
    have hgen : generalAttachmentFields av = [] :=
      List.filter_eq_nil_iff.mpr (List.find?_eq_none.mp hgnone)
    simp [attachmentFieldName, attachmentFields, himg, hgen]

/-- C3 witness: the first-image-match rule at a concrete field list. -/
theorem claim_C3_upload_target_witness :
    (["Notes", "Photo", "File"] : List String).find? matchesImageTerm
        = some "Photo"
    ∧ attachmentFieldName ["Notes", "Photo", "File"] = "Photo" :=
  ⟨by decide,
   claim_C3_upload_target.1 ["Notes", "Photo", "File"] "Photo" (by decide)⟩

/-- C4 counterexample: "Screenshot" matches the image term "screenshot",
so it is an attachment-field candidate, yet it matches no read-only
pattern — it stays an editable input, refuting the claim that every
candidate is classified read-only. -/
theorem claim_C4_counterexample :
    isAttachmentCandidate "Screenshot" = true
    ∧ isReadOnlyField "Screenshot" = false
    ∧ editableFields ["Screenshot"] = ["Screenshot"] := by
  exact ⟨by decide, by decide, by decide⟩

/-- The attachment terms that literally recur among the read-only
patterns of the record form. -/
def sharedAttachmentTerms : List String :=
  ["image", "photo", "picture", "attachment", "file", "document"]

/-- C4 amended: every field name matching one of the shared terms image,
photo, picture, attachment, file or document is classified read-only;
candidates reached only through "screenshot", "pic" or "upload" are not
covered (e.g. "Screenshot"). -/
theorem claim_C4_amended :
    ∀ f, sharedAttachmentTerms.any (fun p => containsCI p f) = true →
    isReadOnlyField f = true := by
  intro f h
  obtain ⟨p, hp, hcf⟩ := List.any_eq_true.mp h
  have hmem : p ∈ readOnlyPatterns := by fin_cases hp <;> decide
  unfold isReadOnlyField
  simp only [Bool.or_eq_true]
  exact Or.inl (List.any_eq_true.mpr ⟨p, hmem, hcf⟩)

/-- C4 amended witness: "Photo" matches a shared term and is read-only. -/
theorem claim_C4_amended_witness :
    sharedAttachmentTerms.any (fun p => containsCI p "Photo") = true
    ∧ isReadOnlyField "Photo" = true :=
  ⟨by decide, claim_C4_amended "Photo" (by decide)⟩

/-- C9: the records table mounts the upload modal without an
available-fields list, so the candidate set is empty, the computed
target falls back to "Attachments", and pressing Upload with a selected
file reports the "No Attachment Field" error — the upload mutation is
never fired. -/
theorem claim_C9_upload_never_fires :
    recordsTableUploadModalFields = []
    ∧ attachmentFields recordsTableUploadModalFields = []
    ∧ attachmentFieldName recordsTableUploadModalFields = "Attachments"
    ∧ handleUpload true recordsTableUploadModalFields = .noAttachmentFieldError
    ∧ ∀ sel fn, ¬ handleUpload sel recordsTableUploadModalFields = .mutate fn := by
  refine ⟨rfl, rfl, rfl, rfl, ?_⟩
  intro sel fn
  cases sel with
  | false => exact fun h => UploadAction.noConfusion h
  | true => exact fun h => UploadAction.noConfusion h

/-- C9 witness: no concrete upload press ever reaches the mutation. -/
theorem claim_C9_upload_never_fires_witness :
    ¬ handleUpload true recordsTableUploadModalFields = .mutate "Attachments" :=
  claim_C9_upload_never_fires.2.2.2.2 true "Attachments"

/-- C10: the read-only patterns match as case-insensitive substrings
anywhere in the name, so "Email" (contains "ai") and "Admin" (contains
"min") are classified read-only — and so hidden from the form — and any
name with a parenthesized substring is classified read-only. -/
theorem claim_C10_overbroad_patterns :
    isReadOnlyField "Email" = true
    ∧ containsCI "ai" "Email" = true
    ∧ isReadOnlyField "Admin" = true
    ∧ containsCI "min" "Admin" = true
    ∧ (∀ l, ¬ "Email" ∈ editableFields l)
    ∧ (∀ s, containsParenPair (lowerName s) = true →
        isReadOnlyField s = true) := by
  refine ⟨by decide, by decide, by decide, by decide, ?_, ?_⟩
  · intro l h
    have h2 := (List.mem_filter.mp h).2
    exact absurd h2 (by decide)
  · intro s hp
    unfold isReadOnlyField
    simp only [Bool.or_eq_true]
    exact Or.inr hp

/-- C10 witness: a concrete parenthesized name is classified read-only. -/
theorem claim_C10_overbroad_patterns_witness :
    containsParenPair (lowerName "Zed (x)") = true
    ∧ isReadOnlyField "Zed (x)" = true :=
  ⟨by decide, claim_C10_overbroad_patterns.2.2.2.2.2 "Zed (x)" (by decide)⟩

end AirtableConnect
